import Mathlib

/-!
Verification of the GeoScripts spatial layer processor
(`src/spatial_layer_processor.py`) against its specification.

The embedding is generic over a `LinearOrderedField α` of coordinate
values: instantiating `α := ℚ` gives fully decidable concrete runs,
while `α := ℝ` (with the genuine cosine) is used for the numerical
claims about the metric-to-angular radius conversion.

Geometric primitives (buffer intersection tests and nearest-point
distances) are supplied by the external shapely/geopandas libraries in
the source; here a geometry is represented by exactly the two
operations the source consumes.
-/

namespace GeoScripts

/-- A 2-D point, as consumed by the source: `point.x` is the longitude
coordinate and `point.y` the latitude coordinate. -/
structure Pt (α : Type) where
  x : α
  y : α
deriving DecidableEq, Repr

/-- A geometry of the river (candidate) layer, abstracted by the two
shapely operations the source applies to it:
`intersectsBuffer p r` models `geom.intersects(p.buffer(r))`
(intersection with the circular buffer of radius `r` centred at `p`),
and `distTo p` models `point.distance(nearest_points(point, geom)[1])`,
the nearest-point distance from `p` to the geometry. -/
structure Geom (α : Type) where
  intersectsBuffer : Pt α → α → Bool
  distTo : Pt α → α

/-- One row of a river GeoDataFrame: an opaque attribute record
(represented by its row identity `fid`) together with its geometry. -/
structure Feature (α : Type) where
  fid : Nat
  geom : Geom α

/-- A geometry of the point layer, as discriminated by the source's
`isinstance` checks: a `Point`, a `MultiPolygon` (represented by its
centroid, the only datum the source extracts from it), or any other
geometry kind (`LineString`, `Polygon`, ...), tagged opaquely. -/
inductive PGeom (α : Type) where
  | point (p : Pt α)
  | multiPolygon (centroid : Pt α)
  | other (tag : Nat)
deriving DecidableEq, Repr

/-- A feature collection: an ordered sequence of features together with
one coordinate reference system, identified by an opaque code. -/
structure Layer (β : Type) where
  crs : Nat
  feats : List β

section Conversion

variable {α : Type} [LinearOrderedField α]

/-- `meters_to_degrees` from the source, generic in the cosine
oracle `cosd` which models `np.cos(np.radians ·)` of the external
numerics library:
`degrees_lat = meters / 111000`;
`degrees_lon = meters / (111000 * np.cos(np.radians(latitude)))`. -/
def meters_to_degrees (cosd : α → α) (meters latitude : α) : α × α :=
  (meters / 111000, meters / (111000 * cosd latitude))

/-- `np.cos(np.radians latitude)`: the genuine cosine of the
degree-to-radian conversion `latitude * π / 180`, used when the model
is instantiated at `α := ℝ`. -/
noncomputable def np_cos_radians (latitude : ℝ) : ℝ :=
  Real.cos (latitude * Real.pi / 180)

end Conversion

section Matcher

variable {α : Type} [LinearOrderedField α]

/-- First-minimum selection: `minBy f x xs` folds over `xs` keeping the
current best and replacing it only on a strictly smaller value, so it
returns the first element of `x :: xs` attaining the minimal `f`-value.
This models `distances.idxmin()` followed by `.loc[...]` in the source
(pandas `idxmin` returns the label of the first occurrence of the
minimum). -/
def minBy {β : Type} (f : β → α) (x : β) (xs : List β) : β :=
  xs.foldl (fun best y => if f y < f best then y else best) x

/-- The pruning step of `find_nearest_river`:
`rivers[rivers.intersects(buffer)]`, the sub-collection (in original
order) of candidates whose geometry intersects the circular buffer of
radius `r` centred at `point`. -/
def rivers_in_buffer (point : Pt α) (rivers : List (Feature α)) (r : α) :
    List (Feature α) :=
  rivers.filter fun riv => riv.geom.intersectsBuffer point r

/-- `find_nearest_river` from the source: convert the metric radius to
degrees at the point's latitude, buffer the point by the larger of the
two degree values, keep the candidates intersecting the buffer, and
return the one at minimal nearest-point distance (`idxmin`: first
occurrence on ties), or `none` when no candidate intersects the
buffer. -/
def find_nearest_river (cosd : α → α) (point : Pt α)
    (rivers : List (Feature α)) (radius_meters : α) : Option (Feature α) :=
  let latitude := point.y
  let dd := meters_to_degrees cosd radius_meters latitude
  match rivers_in_buffer point rivers (max dd.1 dd.2) with
  | [] => none
  | x :: xs => some (minBy (fun riv => riv.geom.distTo point) x xs)

/-- An infinitely long east-west line at latitude `c` (a concrete
shapely `LineString` running along a parallel): its nearest-point
distance from `p` is the latitude difference `|p.y - c|`, and it meets
the circular buffer of radius `r` centred at `p` exactly when that
difference is at most `r`. -/
def horizLine (c : α) : Geom α :=
  ⟨fun p r => decide (|p.y - c| ≤ r), fun p => |p.y - c|⟩

/-- `f` is the first strict minimum of `dist` on `l`: `l` splits as
`l1 ++ f :: l2` where every earlier element has strictly larger
distance and every later element has distance at least `dist f`. -/
def FirstStrictMin {β : Type} (dist : β → α) (l : List β) (f : β) : Prop :=
  ∃ l1 l2, l = l1 ++ f :: l2 ∧ (∀ g ∈ l1, dist f < dist g) ∧
    (∀ g ∈ l2, dist f ≤ dist g)

end Matcher

section Pipeline

variable {α : Type} [LinearOrderedField α]

/-- Normalisation of one point-layer geometry, from
`geom.centroid if isinstance(geom, MultiPolygon) else geom`:
a `MultiPolygon` is replaced by its centroid point, every other
geometry is passed through unchanged. -/
def normalize_geom : PGeom α → PGeom α
  | .multiPolygon c => .point c
  | g => g

/-- The matching loop of `create_new_layer`: normalise the point
geometries, then for each resulting `Point` run `find_nearest_river`
and collect the non-`none` results in iteration order (the source
appends each match to `selected_rivers`); non-`Point` geometries are
skipped. -/
def matched_rivers (cosd : α → α) (points : List (PGeom α))
    (rivers : List (Feature α)) (radius : α) : List (Feature α) :=
  (points.map normalize_geom).filterMap fun g =>
    match g with
    | .point p => find_nearest_river cosd p rivers radius
    | _ => none

/-- Lifting a coordinate transformation over a point-layer geometry;
reprojection preserves the geometry kind (a `MultiPolygon` is carried
by its centroid). -/
def map_geom (f : Pt α → Pt α) : PGeom α → PGeom α
  | .point p => .point (f p)
  | .multiPolygon c => .multiPolygon (f c)
  | .other t => .other t

/-- `GeoDataFrame.to_crs` of the external geopandas library: produce a
new collection carrying the target CRS whose geometries are the
coordinate-transformed originals (`transform src tgt` being the
library's reprojection map from CRS `src` to CRS `tgt`). -/
def to_crs (transform : Nat → Nat → Pt α → Pt α)
    (l : Layer (PGeom α)) (target : Nat) : Layer (PGeom α) :=
  ⟨target, l.feats.map (map_geom (transform l.crs target))⟩

/-- The CRS reconciliation step of `create_new_layer`:
`if river_gdf.crs != point_gdf.crs: point_gdf = point_gdf.to_crs(river_gdf.crs)`.
The point collection is reprojected into the river collection's CRS
when they differ, and used unchanged otherwise. -/
def reconcile_points (transform : Nat → Nat → Pt α → Pt α)
    (river_gdf : Layer (Feature α)) (point_gdf : Layer (PGeom α)) :
    Layer (PGeom α) :=
  if river_gdf.crs ≠ point_gdf.crs then to_crs transform point_gdf river_gdf.crs
  else point_gdf

/-- The external collaborators of one batch run: the GeoJSON reader
for river and point files, the reprojection map of the CRS library,
and the cosine of the numerics library. -/
structure Env (α : Type) where
  loadRiver : String → Layer (Feature α)
  loadPoint : String → Layer (PGeom α)
  transform : Nat → Nat → Pt α → Pt α
  cosd : α → α

/-- The artifact handed to the external writer
(`save_layer_as_geojson`): the output name (without extension) and the
feature collection to write. -/
structure Output (α : Type) where
  name : String
  layer : Layer (Feature α)

/-- `create_new_layer` from the source: load both layers, reconcile
the CRS, run the matching loop, and either return `none` when nothing
was selected (`if not selected_rivers: return`) or the output
collection built from the selected rivers with the river collection's
CRS, under the given layer name. -/
def create_new_layer (env : Env α) (river_path point_path new_layer_name : String)
    (radius : α) : Option (Output α) :=
  let river_gdf := env.loadRiver river_path
  let point_gdf := env.loadPoint point_path
  let point_gdf := reconcile_points env.transform river_gdf point_gdf
  let selected_rivers := matched_rivers env.cosd point_gdf.feats river_gdf.feats radius
  if selected_rivers.isEmpty then none
  else some ⟨new_layer_name, ⟨river_gdf.crs, selected_rivers⟩⟩

/-- `os.path.basename`: the component after the last path separator. -/
def basename (path : String) : String :=
  (path.splitOn "/").getLastD ""

/-- `os.path.splitext(...)[0]` for ordinary file names: the name with
its final dot-extension removed (no component, no leading-dot special
cases, which the repository's `.geojson` inputs never hit). -/
def splitext_base (s : String) : String :=
  let parts := s.splitOn "."
  if parts.length ≤ 1 then s else String.intercalate "." parts.dropLast

/-- `process_layers` from the source: derive the output layer name
`"{pointFileBaseName}_{riverFileBaseName}"` from the two input paths
and run `create_new_layer`. -/
def process_layers (env : Env α) (river_path point_path : String)
    (radius : α) : Option (Output α) :=
  let layer_name := splitext_base (basename point_path)
  let river_name := splitext_base (basename river_path)
  create_new_layer env river_path point_path (layer_name ++ "_" ++ river_name) radius

end Pipeline

section Dynamic

variable {α : Type} [LinearOrderedField α]

/-- A dynamically typed Python value as it flows out of argparse: either
a number or a string (argparse delivers option values as `str` unless a
`type=` converter is given, and `--radius` has none). -/
inductive PyVal (α : Type) where
  | pnum (v : α)
  | pstr (s : String)
deriving DecidableEq, Repr

/-- Python's `v / d` for a dynamically typed numerator: defined on
numbers, raising `TypeError` when `v` is a string (modelled from the
Python semantics of `str.__truediv__`, which is unsupported). -/
def pyDiv (v : PyVal α) (d : α) : Except String α :=
  match v with
  | .pnum a => .ok (a / d)
  | .pstr _ => .error "TypeError"

/-- `meters_to_degrees` as executed on a dynamically typed `meters`
argument: both divisions raise `TypeError` when `meters` is the
unparsed argparse string. -/
def meters_to_degrees_dyn (cosd : α → α) (meters : PyVal α) (latitude : α) :
    Except String (α × α) := do
  let degrees_lat ← pyDiv meters 111000
  let degrees_lon ← pyDiv meters (111000 * cosd latitude)
  pure (degrees_lat, degrees_lon)

/-- `find_nearest_river` as executed on a dynamically typed radius: the
conversion runs first, so a string radius raises before any geometry
work; on a numeric radius the behaviour is the typed matcher's. -/
def find_nearest_river_dyn (cosd : α → α) (point : Pt α)
    (rivers : List (Feature α)) (radius_meters : PyVal α) :
    Except String (Option (Feature α)) :=
  (meters_to_degrees_dyn cosd radius_meters point.y).map fun dd =>
    match rivers_in_buffer point rivers (max dd.1 dd.2) with
    | [] => none
    | x :: xs => some (minBy (fun riv => riv.geom.distTo point) x xs)

/-- One iteration of the matching loop on a dynamically typed radius:
a `Point` geometry runs the matcher (appending a non-`none` match to
the accumulated selection), any other geometry is skipped. -/
def match_step (cosd : α → α) (rivers : List (Feature α)) (radius : PyVal α)
    (acc : List (Feature α)) (g : PGeom α) : Except String (List (Feature α)) :=
  match g with
  | PGeom.point p => do
      let res ← find_nearest_river_dyn cosd p rivers radius
      pure (match res with
            | some f => acc ++ [f]
            | none => acc)
  | _ => pure acc

/-- The matching loop of `create_new_layer` on a dynamically typed
radius: the loop appends matches until the first `Point` raises
`TypeError` (when the radius is a string), which aborts the task. -/
def matched_rivers_dyn (cosd : α → α) (points : List (PGeom α))
    (rivers : List (Feature α)) (radius : PyVal α) :
    Except String (List (Feature α)) :=
  (points.map normalize_geom).foldlM (match_step cosd rivers radius) []

/-- `create_new_layer` as executed on a dynamically typed radius. -/
def create_new_layer_dyn (env : Env α)
    (river_path point_path new_layer_name : String) (radius : PyVal α) :
    Except String (Option (Output α)) := do
  let river_gdf := env.loadRiver river_path
  let point_gdf := env.loadPoint point_path
  let point_gdf := reconcile_points env.transform river_gdf point_gdf
  let selected_rivers ← matched_rivers_dyn env.cosd point_gdf.feats river_gdf.feats radius
  pure (if selected_rivers.isEmpty then none
        else some ⟨new_layer_name, ⟨river_gdf.crs, selected_rivers⟩⟩)

/-- `process_layers` as executed on a dynamically typed radius. -/
def process_layers_dyn (env : Env α) (river_path point_path : String)
    (radius : PyVal α) : Except String (Option (Output α)) :=
  let layer_name := splitext_base (basename point_path)
  let river_name := splitext_base (basename river_path)
  create_new_layer_dyn env river_path point_path (layer_name ++ "_" ++ river_name) radius

end Dynamic

section Batch

variable {α : Type} [LinearOrderedField α]

/-- One submitted task: the `(river_path, point_path)` pair handed to
`executor.submit(process_layers, river, file, save_path, radius)`. -/
def run_task (env : Env α) (t : String × String) (radius : PyVal α) :
    Except String (Option (Output α)) :=
  process_layers_dyn env t.1 t.2 radius

/-- The task list of one batch: the cross product of point files and
river files in submission order (outer loop over point files, inner
loop over river files). -/
def tasks_of (files rivers : List String) : List (String × String) :=
  files.flatMap fun file => rivers.map fun river => (river, file)

/-- What one batch run observably produces: the output collections
handed to the writer, the console messages printed by the
`as_completed` loop, and the number of progress-bar updates. -/
structure BatchResult (α : Type) where
  outputs : List (Output α)
  messages : List String
  progress : Nat

/-- One iteration of the `as_completed` loop of `main`: consume one
task's future; a raised exception is caught and contributes the message
`"An error occurred: {e}"` when verbose (nothing otherwise), and the
progress bar is updated once regardless of outcome. -/
def batch_step (env : Env α) (radius : PyVal α) (verbose : Bool)
    (res : BatchResult α) (t : String × String) : BatchResult α :=
  match run_task env t radius with
  | .ok (some out) => ⟨res.outputs ++ [out], res.messages, res.progress + 1⟩
  | .ok none => ⟨res.outputs, res.messages, res.progress + 1⟩
  | .error e =>
      ⟨res.outputs,
       res.messages ++ (if verbose then ["An error occurred: " ++ e] else []),
       res.progress + 1⟩

/-- The batch loop of `main`: every submitted task is executed and its
future consumed exactly once. `sched` is the order in which the pool's
workers execute the tasks (the source's `ThreadPoolExecutor()` is
unbounded, so `concurrencyLimit` constrains only which interleavings
can occur — the schedule parameter already ranges over all of them). -/
def run_batch (env : Env α) (concurrencyLimit : Option Nat) (radius : PyVal α)
    (verbose : Bool) (sched : List (String × String)) : BatchResult α :=
  let _ := concurrencyLimit
  sched.foldl (batch_step env radius verbose) ⟨[], [], 0⟩

/-- `main` from the source: list the point and river files, build the
cross-product task list, and run the batch with the radius forwarded as
the *unparsed* argparse string (`--radius` is declared without a
`type=` converter, so `args.radius` is a `str`). -/
def main_model (env : Env α) (files rivers : List String) (radius_arg : String)
    (verbose : Bool) : BatchResult α :=
  run_batch env none (PyVal.pstr radius_arg) verbose (tasks_of files rivers)

/-- The output collection a task contributes to the batch (if any). -/
def task_output (env : Env α) (radius : PyVal α) (t : String × String) :
    Option (Output α) :=
  match run_task env t radius with
  | .ok (some out) => some out
  | _ => none

/-- The console message a task contributes to the batch (if any). -/
def task_message (env : Env α) (radius : PyVal α) (verbose : Bool)
    (t : String × String) : Option String :=
  match run_task env t radius with
  | .error e => if verbose then some ("An error occurred: " ++ e) else none
  | _ => none

/-- Whether a task raised an exception. -/
def is_failure {β : Type} : Except String β → Bool
  | .error _ => true
  | .ok _ => false

/-- Whether a point-layer feature list contains at least one `Point`
geometry. -/
def contains_point (l : List (PGeom α)) : Bool :=
  l.any fun g =>
    match g with
    | PGeom.point _ => true
    | _ => false

/-- A degenerate concrete geometry for instantiating the model: it
reports buffer intersection `inb` for every buffer and nearest-point
distance `d` from every point. -/
def constGeom (inb : Bool) (d : α) : Geom α :=
  ⟨fun _ _ => inb, fun _ => d⟩

/-- A concrete environment over `ℚ` whose river files are empty and
whose point files hold one `Point` feature. -/
def envEmptyRivers : Env ℚ :=
  ⟨fun _ => ⟨0, []⟩, fun _ => ⟨0, [PGeom.point ⟨0, 0⟩]⟩, fun _ _ p => p, fun _ => 1⟩

/-- A concrete environment over `ℚ` whose river files hold one feature
intersecting every buffer and whose point files hold one `Point`. -/
def envOneRiver : Env ℚ :=
  ⟨fun _ => ⟨7, [⟨0, constGeom true 0⟩]⟩, fun _ => ⟨7, [PGeom.point ⟨0, 0⟩]⟩,
   fun _ _ p => p, fun _ => 1⟩

end Batch

section MatcherLemmas

variable {α : Type} [LinearOrderedField α] {β : Type}

/-- A first strict minimum is a global minimum of `dist` on `l`. -/
theorem FirstStrictMin.le_of_mem {dist : β → α} {l : List β} {m : β}
    (h : FirstStrictMin dist l m) : ∀ z ∈ l, dist m ≤ dist z := by
  obtain ⟨l1, l2, hs, hlt, hle⟩ := h
  intro z hz
  rw [hs] at hz
  rcases List.mem_append.mp hz with h1 | h2
  · exact le_of_lt (hlt z h1)
  · rcases List.mem_cons.mp h2 with he | h2'
    · rw [he]
    · exact hle z h2'

/-- A first strict minimum is a member of the list. -/
theorem FirstStrictMin.mem {dist : β → α} {l : List β} {m : β}
    (h : FirstStrictMin dist l m) : m ∈ l := by
  obtain ⟨l1, l2, hs, _, _⟩ := h
  rw [hs]
  simp

/-- The strict-improvement fold keeps the first element attaining the
minimum: `minBy f x xs` occurs in `x :: xs`, all elements before it are
strictly larger and all elements after it are at least as large. -/
theorem minBy_firstStrictMin (f : β → α) :
    ∀ (xs : List β) (x : β), FirstStrictMin f (x :: xs) (minBy f x xs) := by
  intro xs
  induction xs with
  | nil =>
    intro x
    exact ⟨[], [], rfl, by simp, by simp⟩
  | cons y ys ih =>
    intro x
    by_cases hyx : f y < f x
    · have hstep : minBy f x (y :: ys) = minBy f y ys := by
        simp [minBy, hyx]
      rw [hstep]
      obtain ⟨l1, l2, hsplit, hlt, hle⟩ := ih y
      have hmy : f (minBy f y ys) ≤ f y :=
        (ih y).le_of_mem y (List.mem_cons_self y ys)
      refine ⟨x :: l1, l2, ?_, ?_, hle⟩
      · rw [List.cons_append, ← hsplit]
      · intro g hg
        rcases List.mem_cons.mp hg with hgx | hgl1
        · rw [hgx]
          exact lt_of_le_of_lt hmy hyx
        · exact hlt g hgl1
    · have hxy : f x ≤ f y := le_of_not_lt hyx
      have hstep : minBy f x (y :: ys) = minBy f x ys := by
        simp [minBy, hyx]
      rw [hstep]
      obtain ⟨l1, l2, hsplit, hlt, hle⟩ := ih x
      cases l1 with
      | nil =>
        obtain ⟨hm, hl2⟩ := List.cons_eq_cons.mp hsplit
        refine ⟨[], y :: ys, by rw [← hm]; rfl, by simp, ?_⟩
        intro g hg
        rcases List.mem_cons.mp hg with he | h2
        · rw [he, ← hm]; exact hxy
        · rw [hl2] at h2; exact hle g h2
      | cons a l1' =>
        rw [List.cons_append] at hsplit
        obtain ⟨hxa, hys⟩ := List.cons_eq_cons.mp hsplit
        have hmx : f (minBy f x ys) < f x :=
          hlt x (by rw [hxa]; exact List.mem_cons_self a l1')
        refine ⟨x :: y :: l1', l2, ?_, ?_, hle⟩
        · simp only [List.cons_append]
          rw [← hys]
        · intro g hg
          rcases List.mem_cons.mp hg with he | hg'
          · rw [he]; exact hmx
          · rcases List.mem_cons.mp hg' with he' | hg''
            · rw [he']; exact lt_of_lt_of_le hmx hxy
            · exact hlt g (List.mem_cons_of_mem a hg'')

end MatcherLemmas

section ClaimC1

/-- C1: for every point and candidate collection, `find_nearest_river`
returns `none` exactly when no candidate geometry intersects the
circular buffer of angular radius `max degrees_lat degrees_lon` centred
on the point; otherwise it returns the in-buffer candidate whose
nearest-point distance to the point is strictly smallest, with ties
broken by first-encountered order in the candidate collection. -/
theorem find_nearest_river_spec {α : Type} [LinearOrderedField α]
    (cosd : α → α) (point : Pt α) (rivers : List (Feature α))
    (radius_meters : α) :
    (find_nearest_river cosd point rivers radius_meters = none ↔
      rivers_in_buffer point rivers
        (max (meters_to_degrees cosd radius_meters point.y).1
             (meters_to_degrees cosd radius_meters point.y).2) = []) ∧
    (∀ f, find_nearest_river cosd point rivers radius_meters = some f →
      FirstStrictMin (fun g => g.geom.distTo point)
        (rivers_in_buffer point rivers
          (max (meters_to_degrees cosd radius_meters point.y).1
               (meters_to_degrees cosd radius_meters point.y).2)) f) := by
  cases h : rivers_in_buffer point rivers
      (max (meters_to_degrees cosd radius_meters point.y).1
           (meters_to_degrees cosd radius_meters point.y).2) with
  | nil =>
    have hf : find_nearest_river cosd point rivers radius_meters = none := by
      simp only [find_nearest_river]
      rw [h]
    refine ⟨by simp [hf], ?_⟩
    intro f hsome
    rw [hf] at hsome
    exact absurd hsome (by simp)
  | cons x xs =>
    have hf : find_nearest_river cosd point rivers radius_meters =
        some (minBy (fun riv => riv.geom.distTo point) x xs) := by
      simp only [find_nearest_river]
      rw [h]
    refine ⟨by simp [hf], ?_⟩
    intro f hsome
    rw [hf] at hsome
    rw [← Option.some_inj.mp hsome]
    exact minBy_firstStrictMin (fun g => g.geom.distTo point) xs x

/-- Concrete instantiation of C1 over `ℚ`: a point with three
candidates — one out of buffer range at distance 5, then two in-buffer
candidates tied at distance 2 — where the matcher returns the first of
the tied pair, which is the first strict minimum of the in-buffer
list. -/
theorem find_nearest_river_spec_witness :
    FirstStrictMin (fun g => g.geom.distTo (⟨0, 0⟩ : Pt ℚ))
      (rivers_in_buffer (⟨0, 0⟩ : Pt ℚ)
        [⟨0, constGeom false 5⟩, ⟨1, constGeom true 2⟩, ⟨2, constGeom true 2⟩]
        (max (meters_to_degrees (fun _ => 1) 111000 (0 : ℚ)).1
             (meters_to_degrees (fun _ => 1) 111000 (0 : ℚ)).2))
      ⟨1, constGeom true 2⟩ :=
  (find_nearest_river_spec (fun _ => 1) ⟨0, 0⟩
      [⟨0, constGeom false 5⟩, ⟨1, constGeom true 2⟩, ⟨2, constGeom true 2⟩]
      111000).2 ⟨1, constGeom true 2⟩ (by rfl)

end ClaimC1

section ClaimC2

/-- C2: the radius converter returns `degrees_lat = meters / 111000`
and `degrees_lon = meters / (111000 * cos(radians(latitude)))`;
in particular `meters_to_degrees 111000 0` is exactly `(1, 1)` and at
latitude 60 degrees `degrees_lon` is exactly twice `degrees_lat`. -/
theorem meters_to_degrees_formula :
    (∀ meters latitude : ℝ,
      meters_to_degrees np_cos_radians meters latitude =
        (meters / 111000,
         meters / (111000 * Real.cos (latitude * Real.pi / 180)))) ∧
    meters_to_degrees np_cos_radians 111000 0 = (1, 1) ∧
    (∀ meters : ℝ,
      (meters_to_degrees np_cos_radians meters 60).2 =
        2 * (meters_to_degrees np_cos_radians meters 60).1) := by
  have h0 : np_cos_radians 0 = 1 := by
    unfold np_cos_radians
    norm_num
  have h60 : np_cos_radians 60 = 1 / 2 := by
    unfold np_cos_radians
    have h : (60 : ℝ) * Real.pi / 180 = Real.pi / 3 := by ring
    rw [h, Real.cos_pi_div_three]
  refine ⟨fun meters latitude => rfl, ?_, ?_⟩
  · simp only [meters_to_degrees, h0]
    norm_num
  · intro meters
    simp only [meters_to_degrees, h60]
    ring

end ClaimC2

section DynLemmas

variable {α : Type} [LinearOrderedField α]

/-- On a numeric radius the dynamic matcher agrees with the typed
matcher. -/
theorem find_nearest_river_dyn_pnum (cosd : α → α) (point : Pt α)
    (rivers : List (Feature α)) (m : α) :
    find_nearest_river_dyn cosd point rivers (PyVal.pnum m) =
      .ok (find_nearest_river cosd point rivers m) := rfl

/-- On a string radius the dynamic matcher raises `TypeError` before
touching any geometry. -/
theorem find_nearest_river_dyn_pstr (cosd : α → α) (point : Pt α)
    (rivers : List (Feature α)) (s : String) :
    find_nearest_river_dyn cosd point rivers (PyVal.pstr s) =
      .error "TypeError" := rfl

/-- On a numeric radius the matching fold collects, in iteration
order, exactly the non-`none` matcher results of the `Point`
geometries. -/
theorem foldlM_match_step_pnum (cosd : α → α) (rivers : List (Feature α))
    (m : α) :
    ∀ (l : List (PGeom α)) (acc : List (Feature α)),
      List.foldlM (match_step cosd rivers (PyVal.pnum m)) acc l =
        .ok (acc ++ l.filterMap fun g =>
          match g with
          | PGeom.point p => find_nearest_river cosd p rivers m
          | _ => none) := by
  intro l
  induction l with
  | nil =>
    intro acc
    rw [List.foldlM_nil]
    show Except.ok acc = _
    simp
  | cons g l ih =>
    intro acc
    cases g with
    | point p =>
      rw [List.foldlM_cons]
      show (List.foldlM (match_step cosd rivers (PyVal.pnum m))
        (match find_nearest_river cosd p rivers m with
         | some f => acc ++ [f]
         | none => acc) l) = _
      cases h : find_nearest_river cosd p rivers m with
      | none => simp [h, ih]
      | some f => simp [h, ih]
    | multiPolygon c =>
      rw [List.foldlM_cons]
      show List.foldlM (match_step cosd rivers (PyVal.pnum m)) acc l = _
      simp [ih]
    | other t =>
      rw [List.foldlM_cons]
      show List.foldlM (match_step cosd rivers (PyVal.pnum m)) acc l = _
      simp [ih]

/-- On a numeric radius the dynamic matching loop agrees with the
typed one and never raises. -/
theorem matched_rivers_dyn_pnum (cosd : α → α) (points : List (PGeom α))
    (rivers : List (Feature α)) (m : α) :
    matched_rivers_dyn cosd points rivers (PyVal.pnum m) =
      .ok (matched_rivers cosd points rivers m) := by
  unfold matched_rivers_dyn matched_rivers
  rw [foldlM_match_step_pnum]
  simp

/-- On a string radius the matching fold raises `TypeError` as soon as
it reaches a `Point` geometry. -/
theorem foldlM_match_step_pstr (cosd : α → α) (rivers : List (Feature α))
    (s : String) :
    ∀ (l : List (PGeom α)) (acc : List (Feature α)),
      (∃ p, PGeom.point p ∈ l) →
      List.foldlM (match_step cosd rivers (PyVal.pstr s)) acc l =
        .error "TypeError" := by
  intro l
  induction l with
  | nil =>
    intro acc h
    obtain ⟨p, hp⟩ := h
    exact absurd hp (List.not_mem_nil _)
  | cons g l ih =>
    intro acc h
    cases g with
    | point p =>
      rw [List.foldlM_cons]
      rfl
    | multiPolygon c =>
      rw [List.foldlM_cons]
      show List.foldlM (match_step cosd rivers (PyVal.pstr s)) acc l = _
      refine ih acc ?_
      obtain ⟨p, hp⟩ := h
      rcases List.mem_cons.mp hp with he | hl
      · cases he
      · exact ⟨p, hl⟩
    | other t =>
      rw [List.foldlM_cons]
      show List.foldlM (match_step cosd rivers (PyVal.pstr s)) acc l = _
      refine ih acc ?_
      obtain ⟨p, hp⟩ := h
      rcases List.mem_cons.mp hp with he | hl
      · cases he
      · exact ⟨p, hl⟩

/-- `contains_point` detects exactly the presence of a `Point`
geometry. -/
theorem contains_point_iff {γ : Type} (l : List (PGeom γ)) :
    contains_point l = true ↔ ∃ p, PGeom.point p ∈ l := by
  unfold contains_point
  rw [List.any_eq_true]
  constructor
  · rintro ⟨g, hg, hgt⟩
    cases g with
    | point p => exact ⟨p, hg⟩
    | multiPolygon c => exact Bool.noConfusion hgt
    | other t => exact Bool.noConfusion hgt
  · rintro ⟨p, hp⟩
    exact ⟨PGeom.point p, hp, rfl⟩

/-- CRS reconciliation preserves the presence of a `Point` geometry
(reprojection only moves coordinates). -/
theorem contains_point_reconcile {γ : Type} (transform : Nat → Nat → Pt γ → Pt γ)
    (river : Layer (Feature γ)) (point_layer : Layer (PGeom γ))
    (h : contains_point point_layer.feats = true) :
    contains_point (reconcile_points transform river point_layer).feats = true := by
  rw [contains_point_iff] at h ⊢
  obtain ⟨p, hp⟩ := h
  unfold reconcile_points
  by_cases hc : river.crs ≠ point_layer.crs
  · rw [if_pos hc]
    exact ⟨transform point_layer.crs river.crs p,
           List.mem_map.mpr ⟨PGeom.point p, hp, rfl⟩⟩
  · rw [if_neg hc]
    exact ⟨p, hp⟩

/-- On a string radius the matching loop raises `TypeError` whenever
the (normalised) point list contains a `Point`. -/
theorem matched_rivers_dyn_pstr (cosd : α → α) (points : List (PGeom α))
    (rivers : List (Feature α)) (s : String)
    (h : contains_point points = true) :
    matched_rivers_dyn cosd points rivers (PyVal.pstr s) =
      .error "TypeError" := by
  unfold matched_rivers_dyn
  apply foldlM_match_step_pstr
  obtain ⟨p, hp⟩ := (contains_point_iff points).mp h
  exact ⟨p, List.mem_map.mpr ⟨PGeom.point p, hp, rfl⟩⟩

/-- `create_new_layer_dyn` is the bind of the matching loop against
the output construction. -/
theorem create_new_layer_dyn_eq (env : Env α)
    (river_path point_path new_layer_name : String) (radius : PyVal α) :
    create_new_layer_dyn env river_path point_path new_layer_name radius =
      matched_rivers_dyn env.cosd
          (reconcile_points env.transform (env.loadRiver river_path)
            (env.loadPoint point_path)).feats
          (env.loadRiver river_path).feats radius >>= fun selected_rivers =>
        pure (if selected_rivers.isEmpty then none
              else some ⟨new_layer_name,
                         ⟨(env.loadRiver river_path).crs, selected_rivers⟩⟩) := rfl

/-- Unfolding of `create_new_layer` through its pipeline stages. -/
theorem create_new_layer_eq (env : Env α)
    (river_path point_path new_layer_name : String) (radius : α) :
    create_new_layer env river_path point_path new_layer_name radius =
      (if (matched_rivers env.cosd
            (reconcile_points env.transform (env.loadRiver river_path)
              (env.loadPoint point_path)).feats
            (env.loadRiver river_path).feats radius).isEmpty then none
       else some ⟨new_layer_name,
                  ⟨(env.loadRiver river_path).crs,
                   matched_rivers env.cosd
                     (reconcile_points env.transform (env.loadRiver river_path)
                       (env.loadPoint point_path)).feats
                     (env.loadRiver river_path).feats radius⟩⟩) := rfl

/-- `process_layers` is `create_new_layer` under the derived name. -/
theorem process_layers_eq (env : Env α) (river_path point_path : String)
    (radius : α) :
    process_layers env river_path point_path radius =
      create_new_layer env river_path point_path
        (splitext_base (basename point_path) ++ "_" ++
          splitext_base (basename river_path)) radius := rfl

end DynLemmas

section BatchLemmas

variable {α : Type} [LinearOrderedField α]

/-- The batch loop folded from an arbitrary intermediate state:
outputs, messages and progress accumulate pointwise over the
schedule. -/
theorem foldl_batch_step (env : Env α) (radius : PyVal α) (verbose : Bool) :
    ∀ (l : List (String × String)) (res : BatchResult α),
      l.foldl (batch_step env radius verbose) res =
        ⟨res.outputs ++ l.filterMap (task_output env radius),
         res.messages ++ l.filterMap (task_message env radius verbose),
         res.progress + l.length⟩ := by
  intro l
  induction l with
  | nil =>
    intro res
    simp
  | cons t l ih =>
    intro res
    rw [List.foldl_cons, ih]
    cases h : run_task env t radius with
    | ok o =>
      cases o with
      | some out =>
        simp [batch_step, task_output, task_message, h, List.filterMap_cons]
        omega
      | none =>
        simp [batch_step, task_output, task_message, h, List.filterMap_cons]
        omega
    | error e =>
      cases verbose with
      | false =>
        simp [batch_step, task_output, task_message, h, List.filterMap_cons]
        omega
      | true =>
        simp [batch_step, task_output, task_message, h, List.filterMap_cons]
        omega

/-- The observable result of one batch run, task by task. -/
theorem run_batch_eq (env : Env α) (concurrencyLimit : Option Nat)
    (radius : PyVal α) (verbose : Bool) (sched : List (String × String)) :
    run_batch env concurrencyLimit radius verbose sched =
      ⟨sched.filterMap (task_output env radius),
       sched.filterMap (task_message env radius verbose),
       sched.length⟩ := by
  unfold run_batch
  rw [foldl_batch_step]
  simp

/-- The submitted task list has one entry per (point file, river file)
pair. -/
theorem tasks_of_length (files rivers : List String) :
    (tasks_of files rivers).length = files.length * rivers.length := by
  unfold tasks_of
  induction files with
  | nil => simp
  | cons f fs ih =>
    simp only [List.flatMap_cons, List.length_append, List.length_map, ih,
      List.length_cons, Nat.succ_mul]
    omega

/-- With verbosity off a task never contributes a console message. -/
theorem task_message_false_none (env : Env α) (radius : PyVal α)
    (t : String × String) :
    task_message env radius false t = none := by
  unfold task_message
  cases run_task env t radius with
  | ok o => rfl
  | error e => simp

/-- Dropping entries on which `f` is `none` does not change a
`filterMap`. -/
theorem filterMap_filter_eq {γ δ : Type} (f : γ → Option δ) (p : γ → Bool)
    (h : ∀ x, p x = false → f x = none) :
    ∀ l : List γ, (l.filter p).filterMap f = l.filterMap f := by
  intro l
  induction l with
  | nil => simp
  | cons x l ih =>
    cases hp : p x with
    | true =>
      cases hf : f x with
      | none => simp [List.filter_cons, hp, List.filterMap_cons, hf, ih]
      | some y => simp [List.filter_cons, hp, List.filterMap_cons, hf, ih]
    | false =>
      simp [List.filter_cons, hp, List.filterMap_cons, h x hp, ih]

end BatchLemmas

section ClaimC3

/-- C3: the command-line entry point forwards the radius option as the
unconverted argparse string into `process_layers` and on into
`meters_to_degrees`, where dividing a string by 111000 raises
`TypeError`; consequently every task whose point layer contains at
least one `Point` geometry fails, and with the default non-verbose
setting these failures are swallowed without any report (the batch's
message list stays empty). -/
theorem radius_string_swallowed {α : Type} [LinearOrderedField α]
    (env : Env α) (radius_arg : String) :
    (∀ (cosd : α → α) (latitude : α),
      meters_to_degrees_dyn cosd (PyVal.pstr radius_arg) latitude =
        .error "TypeError") ∧
    (∀ river_path point_path : String,
      contains_point (env.loadPoint point_path).feats = true →
      run_task env (river_path, point_path) (PyVal.pstr radius_arg) =
        .error "TypeError") ∧
    (∀ files rivers : List String,
      (main_model env files rivers radius_arg false).messages = []) := by
  refine ⟨fun cosd latitude => rfl, ?_, ?_⟩
  · intro river_path point_path h
    have h2 := contains_point_reconcile env.transform (env.loadRiver river_path)
      (env.loadPoint point_path) h
    have h3 := matched_rivers_dyn_pstr env.cosd
      (reconcile_points env.transform (env.loadRiver river_path)
        (env.loadPoint point_path)).feats
      (env.loadRiver river_path).feats radius_arg h2
    show process_layers_dyn env river_path point_path (PyVal.pstr radius_arg) =
      Except.error "TypeError"
    unfold process_layers_dyn
    rw [create_new_layer_dyn_eq, h3]
    rfl
  · intro files rivers
    unfold main_model
    rw [run_batch_eq]
    exact List.filterMap_eq_nil_iff.mpr fun t _ =>
      task_message_false_none env (PyVal.pstr radius_arg) t

/-- Concrete instantiation of C3 over `ℚ`: one point file holding one
`Point`, one river file; the task raises `TypeError` and the
non-verbose batch prints nothing. -/
theorem radius_string_swallowed_witness :
    run_task envEmptyRivers ("r.geojson", "p.geojson") (PyVal.pstr "5000") =
      .error "TypeError" ∧
    (main_model envEmptyRivers ["p.geojson"] ["r.geojson"] "5000"
        false).messages = [] :=
  ⟨(radius_string_swallowed envEmptyRivers "5000").2.1 "r.geojson" "p.geojson"
      (by rfl),
   (radius_string_swallowed envEmptyRivers "5000").2.2 ["p.geojson"]
      ["r.geojson"]⟩

end ClaimC3

section ClaimC4

/-- C4 counterexample: a concrete batch whose single task fails (the
radius string makes it raise `TypeError`), run with the default
non-verbose setting: the batch's only failure-reporting channel — the
console messages of the `as_completed` loop — is empty, and no output
is produced. There is no `BatchReport`: the failure is recorded
nowhere, in particular not against the task's identity, refuting the
claim as stated. -/
theorem batch_failure_unrecorded :
    is_failure
        (run_task envEmptyRivers ("r.geojson", "p.geojson")
          (PyVal.pstr "5000")) = true ∧
    (run_batch envEmptyRivers none (PyVal.pstr "5000") false
        [("r.geojson", "p.geojson")]).messages = [] ∧
    (run_batch envEmptyRivers none (PyVal.pstr "5000") false
        [("r.geojson", "p.geojson")]).outputs = [] :=
  ⟨rfl, rfl, rfl⟩

/-- C4 (amended): each task's exception is caught at the task
boundary: the batch loop consumes every future, increments progress
exactly once per task and returns only after all `N × M` submitted
tasks have completed; a failing task does not cancel or affect sibling
tasks (removing all failing tasks leaves the outputs unchanged).
However, failures are not recorded in any report against the task's
identity: a failure surfaces only as a verbose-gated console message,
and with verbosity off the message list is empty. -/
theorem batch_isolation_and_join {α : Type} [LinearOrderedField α]
    (env : Env α) (concurrencyLimit : Option Nat) (radius : PyVal α)
    (verbose : Bool) (files rivers : List String)
    (sched : List (String × String))
    (hperm : sched.Perm (tasks_of files rivers)) :
    (run_batch env concurrencyLimit radius verbose sched).progress =
      files.length * rivers.length ∧
    (run_batch env concurrencyLimit radius verbose sched).outputs =
      sched.filterMap (task_output env radius) ∧
    (run_batch env concurrencyLimit radius verbose sched).messages =
      sched.filterMap (task_message env radius verbose) ∧
    (verbose = false →
      (run_batch env concurrencyLimit radius verbose sched).messages = []) ∧
    (run_batch env concurrencyLimit radius verbose
        (sched.filter fun t => !is_failure (run_task env t radius))).outputs =
      (run_batch env concurrencyLimit radius verbose sched).outputs := by
  rw [run_batch_eq, run_batch_eq]
  refine ⟨?_, rfl, rfl, ?_, ?_⟩
  · rw [hperm.length_eq, tasks_of_length]
  · intro hv
    rw [hv]
    exact List.filterMap_eq_nil_iff.mpr fun t _ => task_message_false_none env radius t
  · refine filterMap_filter_eq _ _ ?_ sched
    intro t ht
    unfold task_output
    unfold is_failure at ht
    cases h : run_task env t radius with
    | ok o =>
      exact absurd ht (by rw [h] at ht ⊢; cases o <;> simp_all)
    | error e => rfl

/-- Concrete instantiation of C4 (amended) over `ℚ`: the 1 × 1 batch
in submission order. -/
theorem batch_isolation_and_join_witness :
    (run_batch envEmptyRivers none (PyVal.pstr "5000") false
        (tasks_of ["p.geojson"] ["r.geojson"])).progress = 1 * 1 ∧
    (run_batch envEmptyRivers none (PyVal.pstr "5000") false
        (tasks_of ["p.geojson"] ["r.geojson"])).outputs =
      (tasks_of ["p.geojson"] ["r.geojson"]).filterMap
        (task_output envEmptyRivers (PyVal.pstr "5000")) ∧
    (run_batch envEmptyRivers none (PyVal.pstr "5000") false
        (tasks_of ["p.geojson"] ["r.geojson"])).messages =
      (tasks_of ["p.geojson"] ["r.geojson"]).filterMap
        (task_message envEmptyRivers (PyVal.pstr "5000") false) ∧
    (false = false →
      (run_batch envEmptyRivers none (PyVal.pstr "5000") false
          (tasks_of ["p.geojson"] ["r.geojson"])).messages = []) ∧
    (run_batch envEmptyRivers none (PyVal.pstr "5000") false
        ((tasks_of ["p.geojson"] ["r.geojson"]).filter fun t =>
          !is_failure (run_task envEmptyRivers t (PyVal.pstr "5000")))).outputs =
      (run_batch envEmptyRivers none (PyVal.pstr "5000") false
          (tasks_of ["p.geojson"] ["r.geojson"])).outputs := by
  have h : (1 : Nat) * 1 = (["p.geojson"] : List String).length *
      (["r.geojson"] : List String).length := by simp
  rw [h]
  exact batch_isolation_and_join envEmptyRivers none (PyVal.pstr "5000") false
    ["p.geojson"] ["r.geojson"] (tasks_of ["p.geojson"] ["r.geojson"])
    (List.Perm.refl _)

end ClaimC4

section ClaimC5

/-- C5: if the river and point collections' CRS differ, the point
collection is reprojected into the river collection's CRS (river CRS
authoritative, and the reconciled collection carries the river CRS);
if they are equal the point collection is used unchanged; and the
output layer always carries the loaded river collection's CRS, which
is never changed. -/
theorem crs_reconcile_spec {α : Type} [LinearOrderedField α]
    (transform : Nat → Nat → Pt α → Pt α)
    (river_gdf : Layer (Feature α)) (point_gdf : Layer (PGeom α)) :
    (river_gdf.crs ≠ point_gdf.crs →
      reconcile_points transform river_gdf point_gdf =
        to_crs transform point_gdf river_gdf.crs ∧
      (reconcile_points transform river_gdf point_gdf).crs = river_gdf.crs) ∧
    (river_gdf.crs = point_gdf.crs →
      reconcile_points transform river_gdf point_gdf = point_gdf) ∧
    (∀ (env : Env α) (river_path point_path new_layer_name : String)
        (radius : α) (out : Output α),
      create_new_layer env river_path point_path new_layer_name radius =
        some out →
      out.layer.crs = (env.loadRiver river_path).crs) := by
  refine ⟨?_, ?_, ?_⟩
  · intro hne
    unfold reconcile_points
    rw [if_pos hne]
    exact ⟨rfl, rfl⟩
  · intro heq
    unfold reconcile_points
    rw [if_neg (by simp [heq])]
  · intro env river_path point_path new_layer_name radius out hout
    rw [create_new_layer_eq] at hout
    by_cases he : (matched_rivers env.cosd
        (reconcile_points env.transform (env.loadRiver river_path)
          (env.loadPoint point_path)).feats
        (env.loadRiver river_path).feats radius).isEmpty
    · rw [if_pos he] at hout
      exact absurd hout (by simp)
    · rw [if_neg he] at hout
      rw [← Option.some_inj.mp hout]

/-- Concrete instantiation of C5 over `ℚ`: layers with CRS codes 1 and
2 — the point layer is reprojected and carries CRS 1 afterwards. -/
theorem crs_reconcile_spec_witness :
    reconcile_points (fun _ _ p => p) (⟨1, []⟩ : Layer (Feature ℚ))
        (⟨2, [PGeom.point ⟨0, 0⟩]⟩ : Layer (PGeom ℚ)) =
      to_crs (fun _ _ p => p) (⟨2, [PGeom.point ⟨0, 0⟩]⟩ : Layer (PGeom ℚ)) 1 ∧
    (reconcile_points (fun _ _ p => p) (⟨1, []⟩ : Layer (Feature ℚ))
        (⟨2, [PGeom.point ⟨0, 0⟩]⟩ : Layer (PGeom ℚ))).crs = 1 :=
  (crs_reconcile_spec (fun _ _ p => p) ⟨1, []⟩ ⟨2, [PGeom.point ⟨0, 0⟩]⟩).1
    (by decide)

end ClaimC5

section ClaimC6

/-- C6: in the normalization-plus-matching loop, a `MultiPolygon` is
matched through its centroid, a `Point` is matched as-is, and any
other geometry is skipped — it is never passed to the matcher and
contributes nothing to the collected output. -/
theorem normalize_match_spec {α : Type} [LinearOrderedField α]
    (cosd : α → α) (p c : Pt α) (t : Nat) (pts : List (PGeom α))
    (rivers : List (Feature α)) (radius : α) :
    matched_rivers cosd (PGeom.point p :: pts) rivers radius =
      (find_nearest_river cosd p rivers radius).toList ++
        matched_rivers cosd pts rivers radius ∧
    matched_rivers cosd (PGeom.multiPolygon c :: pts) rivers radius =
      (find_nearest_river cosd c rivers radius).toList ++
        matched_rivers cosd pts rivers radius ∧
    matched_rivers cosd (PGeom.other t :: pts) rivers radius =
      matched_rivers cosd pts rivers radius := by
  refine ⟨?_, ?_, ?_⟩
  · unfold matched_rivers
    cases h : find_nearest_river cosd p rivers radius <;>
      simp [normalize_geom, List.filterMap_cons, h]
  · unfold matched_rivers
    cases h : find_nearest_river cosd c rivers radius <;>
      simp [normalize_geom, List.filterMap_cons, h]
  · unfold matched_rivers
    simp [normalize_geom, List.filterMap_cons]

end ClaimC6

section ClaimC7

/-- Binding an `ok` value in the `Except` monad applies the
continuation. -/
theorem except_ok_bind {γ δ : Type} (a : γ) (f : γ → Except String δ) :
    (Except.ok a >>= f : Except String δ) = f a := rfl

/-- C7: when the matching loop collects nothing, the pipeline produces
no output artifact (`none`) and the task finishes without raising —
its result is `ok`, so nothing is recorded as a failure. -/
theorem empty_match_no_output {α : Type} [LinearOrderedField α]
    (env : Env α) (river_path point_path new_layer_name : String) (radius : α)
    (h : (matched_rivers env.cosd
        (reconcile_points env.transform (env.loadRiver river_path)
          (env.loadPoint point_path)).feats
        (env.loadRiver river_path).feats radius).isEmpty = true) :
    create_new_layer env river_path point_path new_layer_name radius = none ∧
    create_new_layer_dyn env river_path point_path new_layer_name
      (PyVal.pnum radius) = .ok none := by
  constructor
  · rw [create_new_layer_eq, if_pos h]
  · rw [create_new_layer_dyn_eq, matched_rivers_dyn_pnum, except_ok_bind,
      if_pos h]
    rfl

/-- Concrete instantiation of C7 over `ℚ`: the river file is empty, so
the single point matches nothing and the task yields `ok none`. -/
theorem empty_match_no_output_witness :
    create_new_layer envEmptyRivers "r.geojson" "p.geojson" "p_r"
      (111000 : ℚ) = none ∧
    create_new_layer_dyn envEmptyRivers "r.geojson" "p.geojson" "p_r"
      (PyVal.pnum (111000 : ℚ)) = .ok none :=
  empty_match_no_output envEmptyRivers "r.geojson" "p.geojson" "p_r" 111000
    (by rfl)

end ClaimC7

section ClaimC8

/-- C8: when the matching loop collects at least one river, the
pipeline hands the writer an output collection holding exactly the
collected matched features in point-iteration order (duplicates
retained), carrying the river collection's CRS, under the name
`"{pointFileBaseName}_{riverFileBaseName}"`. -/
theorem output_layer_spec {α : Type} [LinearOrderedField α]
    (env : Env α) (river_path point_path : String) (radius : α)
    (h : (matched_rivers env.cosd
        (reconcile_points env.transform (env.loadRiver river_path)
          (env.loadPoint point_path)).feats
        (env.loadRiver river_path).feats radius).isEmpty = false) :
    process_layers env river_path point_path radius =
      some ⟨splitext_base (basename point_path) ++ "_" ++
              splitext_base (basename river_path),
            ⟨(env.loadRiver river_path).crs,
             matched_rivers env.cosd
               (reconcile_points env.transform (env.loadRiver river_path)
                 (env.loadPoint point_path)).feats
               (env.loadRiver river_path).feats radius⟩⟩ := by
  rw [process_layers_eq, create_new_layer_eq, if_neg (by simp [h])]

/-- Concrete instantiation of C8 over `ℚ`: one point, one river
intersecting every buffer — the writer receives that river under the
derived layer name with the river layer's CRS. -/
theorem output_layer_spec_witness :
    (matched_rivers envOneRiver.cosd
        (reconcile_points envOneRiver.transform
          (envOneRiver.loadRiver "r.geojson")
          (envOneRiver.loadPoint "p.geojson")).feats
        (envOneRiver.loadRiver "r.geojson").feats (111000 : ℚ)).isEmpty =
      false ∧
    process_layers envOneRiver "r.geojson" "p.geojson" (111000 : ℚ) =
      some ⟨splitext_base (basename "p.geojson") ++ "_" ++
              splitext_base (basename "r.geojson"),
            ⟨(envOneRiver.loadRiver "r.geojson").crs,
             matched_rivers envOneRiver.cosd
               (reconcile_points envOneRiver.transform
                 (envOneRiver.loadRiver "r.geojson")
                 (envOneRiver.loadPoint "p.geojson")).feats
               (envOneRiver.loadRiver "r.geojson").feats (111000 : ℚ)⟩⟩ :=
  ⟨by rfl,
   output_layer_spec envOneRiver "r.geojson" "p.geojson" 111000 (by rfl)⟩

end ClaimC8

section ClaimC9

/-- C9: for the same batch of point and river files and any two worker
schedules (in particular those realisable with a pool bound of 1 and
of 8), the two runs hand the writer the same set of output files —
concurrency affects only timing, never result content. -/
theorem concurrency_invariance {α : Type} [LinearOrderedField α]
    (env : Env α) (files rivers : List String) (radius : PyVal α)
    (verbose : Bool) (sched1 sched2 : List (String × String))
    (h1 : sched1.Perm (tasks_of files rivers))
    (h2 : sched2.Perm (tasks_of files rivers)) :
    ((run_batch env (some 1) radius verbose sched1).outputs).Perm
      ((run_batch env (some 8) radius verbose sched2).outputs) := by
  rw [run_batch_eq, run_batch_eq]
  exact (h1.trans h2.symm).filterMap _

/-- Concrete instantiation of C9 over `ℚ`: the 1 × 1 batch run under
pool bounds 1 and 8 with the same schedule. -/
theorem concurrency_invariance_witness :
    ((run_batch envOneRiver (some 1) (PyVal.pnum (111000 : ℚ)) false
        (tasks_of ["p.geojson"] ["r.geojson"])).outputs).Perm
      ((run_batch envOneRiver (some 8) (PyVal.pnum (111000 : ℚ)) false
          (tasks_of ["p.geojson"] ["r.geojson"])).outputs) :=
  concurrency_invariance envOneRiver ["p.geojson"] ["r.geojson"]
    (PyVal.pnum 111000) false (tasks_of ["p.geojson"] ["r.geojson"])
    (tasks_of ["p.geojson"] ["r.geojson"]) (List.Perm.refl _)
    (List.Perm.refl _)

end ClaimC9

section ClaimC10

/-- C10: `find_nearest_river` can return a candidate whose metric
distance exceeds the requested radius. At latitude 60° the buffer
radius is `max(degrees_lat, degrees_lon) = degrees_lon = 2 ·
degrees_lat`, so for a 111000 m radius an east-west line 1.5 degrees
of latitude due north (166500 m away by the code's own 111000 m per
degree of latitude) still intersects the buffer and, being the only
candidate, is returned; the selected candidate is never compared
against the radius afterwards. -/
theorem buffer_overshoot :
    find_nearest_river np_cos_radians (⟨0, 60⟩ : Pt ℝ)
        [⟨0, horizLine (123 / 2)⟩] 111000 =
      some ⟨0, horizLine (123 / 2)⟩ ∧
    (horizLine (123 / 2) : Geom ℝ).distTo ⟨0, 60⟩ * 111000 > 111000 := by
  have habs : |(60 : ℝ) - 123 / 2| = 3 / 2 := by
    have h : (60 : ℝ) - 123 / 2 = -(3 / 2) := by norm_num
    rw [h, abs_neg, abs_of_nonneg (by norm_num : (0 : ℝ) ≤ 3 / 2)]
  have hcos : np_cos_radians 60 = 1 / 2 := by
    unfold np_cos_radians
    have h : (60 : ℝ) * Real.pi / 180 = Real.pi / 3 := by ring
    rw [h, Real.cos_pi_div_three]
  have hdd : meters_to_degrees np_cos_radians (111000 : ℝ) 60 = (1, 2) := by
    unfold meters_to_degrees
    rw [hcos]
    norm_num
  constructor
  · have hin : (⟨0, horizLine (123 / 2)⟩ : Feature ℝ).geom.intersectsBuffer
        ⟨0, 60⟩ 2 = true := by
      show decide (|(60 : ℝ) - 123 / 2| ≤ 2) = true
      rw [decide_eq_true_eq, habs]
      norm_num
    have hbuf : rivers_in_buffer (⟨0, 60⟩ : Pt ℝ)
        [⟨0, horizLine (123 / 2)⟩] 2 = [⟨0, horizLine (123 / 2)⟩] := by
      unfold rivers_in_buffer
      rw [List.filter_cons, if_pos hin, List.filter_nil]
    have hmax : max (meters_to_degrees np_cos_radians (111000 : ℝ)
          (Pt.mk (0 : ℝ) 60).y).1
        (meters_to_degrees np_cos_radians (111000 : ℝ)
          (Pt.mk (0 : ℝ) 60).y).2 = 2 := by
      show max (meters_to_degrees np_cos_radians (111000 : ℝ) 60).1
        (meters_to_degrees np_cos_radians (111000 : ℝ) 60).2 = 2
      rw [hdd]
      show max (1 : ℝ) 2 = 2
      rw [max_eq_right (by norm_num : (1 : ℝ) ≤ 2)]
    simp only [find_nearest_river]
    rw [hmax, hbuf]
    rfl
  · show |(60 : ℝ) - 123 / 2| * 111000 > 111000
    rw [habs]
    norm_num

end ClaimC10

end GeoScripts
